import Mathlib

/-!
Verification of the affordability pipeline in
`src/affordability_analysis.py` (repository `yousefja/real-estate-trends`).

The pandas code is shallowly embedded: a DataFrame is a list of typed rows,
a float cell is a `PVal` (a rational, `inf`, `-inf`, or `nan`; pandas uses
NaN both for missing values after a left join and for parse failures under
`errors="coerce"`), and arithmetic / comparisons on cells follow IEEE-754
semantics on those four shapes.  A function that can raise (e.g. a column
`astype` on malformed text) returns `Option`.  `format_price` (from
`util.py`) is documented by the spec as an out-of-scope black-box text
parser assumed total, so every definition that needs it takes it as an
argument `fp : String → PVal`.

The numeric-text parsers model Python `float(...)` / `int(...)` on the
decimal literals that occur in this data (optional sign, digits, optional
fractional part); exponent forms and `inf`/`nan` literals are not modelled,
so inputs using them fall outside the theorems' success hypotheses rather
than being mis-modelled.
-/

/-- A pandas float cell: finite rational, `+inf`, `-inf`, or NaN.
NaN also represents a missing value (pandas stores missing floats as NaN). -/
inductive PVal
  | num (q : ℚ)
  | inf
  | negInf
  | nan
deriving DecidableEq, Repr

namespace PVal

/-- IEEE multiplication on cells (`Series.__mul__` semantics). -/
def pmul : PVal → PVal → PVal
  | nan, _ => nan
  | _, nan => nan
  | num a, num b => num (a * b)
  | num a, inf => if a > 0 then inf else if a < 0 then negInf else nan
  | inf, num b => if b > 0 then inf else if b < 0 then negInf else nan
  | num a, negInf => if a > 0 then negInf else if a < 0 then inf else nan
  | negInf, num b => if b > 0 then negInf else if b < 0 then inf else nan
  | inf, inf => inf
  | inf, negInf => negInf
  | negInf, inf => negInf
  | negInf, negInf => inf

/-- IEEE addition on cells. -/
def padd : PVal → PVal → PVal
  | nan, _ => nan
  | _, nan => nan
  | num a, num b => num (a + b)
  | num _, inf => inf
  | inf, num _ => inf
  | num _, negInf => negInf
  | negInf, num _ => negInf
  | inf, inf => inf
  | inf, negInf => nan
  | negInf, inf => nan
  | negInf, negInf => negInf

/-- IEEE subtraction on cells. -/
def psub : PVal → PVal → PVal
  | nan, _ => nan
  | _, nan => nan
  | num a, num b => num (a - b)
  | num _, inf => negInf
  | num _, negInf => inf
  | inf, num _ => inf
  | negInf, num _ => negInf
  | inf, inf => nan
  | inf, negInf => inf
  | negInf, inf => negInf
  | negInf, negInf => nan

/-- IEEE division on cells; numpy-style: a nonzero finite over `0` is a
signed infinity, `0/0` is NaN (pandas/numpy do not raise on float division
by zero). -/
def pdiv : PVal → PVal → PVal
  | nan, _ => nan
  | _, nan => nan
  | num a, num b =>
      if b = 0 then (if a > 0 then inf else if a < 0 then negInf else nan)
      else num (a / b)
  | num _, inf => num 0
  | num _, negInf => num 0
  | inf, num b => if b < 0 then negInf else inf
  | negInf, num b => if b < 0 then inf else negInf
  | inf, inf => nan
  | inf, negInf => nan
  | negInf, inf => nan
  | negInf, negInf => nan

/-- IEEE strict less-than on cells: any comparison with NaN is `false`. -/
def pltB : PVal → PVal → Bool
  | nan, _ => false
  | _, nan => false
  | num a, num b => decide (a < b)
  | num _, inf => true
  | num _, negInf => false
  | inf, _ => false
  | negInf, negInf => false
  | negInf, _ => true

/-- IEEE non-strict less-or-equal on cells: any comparison with NaN is
`false`. -/
def pleB : PVal → PVal → Bool
  | nan, _ => false
  | _, nan => false
  | num a, num b => decide (a ≤ b)
  | num _, inf => true
  | num _, negInf => false
  | inf, inf => true
  | inf, _ => false
  | negInf, _ => true

/-- Finite (neither infinite nor NaN). -/
def isFinite : PVal → Bool
  | num _ => true
  | _ => false

/-- Python `round(x, 1)` rounds half to even; it returns the argument
unchanged on infinities and NaN (with an `ndigits` argument it never
raises). -/
def roundHalfEven (q : ℚ) : ℤ :=
  if q - ⌊q⌋ < 1 / 2 then ⌊q⌋
  else if 1 / 2 < q - ⌊q⌋ then ⌊q⌋ + 1
  else if 2 ∣ ⌊q⌋ then ⌊q⌋ else ⌊q⌋ + 1

/-- `round(x, 1)` on a cell. -/
def pround1 : PVal → PVal
  | num q => num ((roundHalfEven (10 * q) : ℚ) / 10)
  | inf => inf
  | negInf => negInf
  | nan => nan

end PVal

open PVal

/-- Value of a list of decimal digit characters. -/
def digitsVal (cs : List Char) : ℕ :=
  cs.foldl (fun a c => 10 * a + (c.toNat - 48)) 0

/-- Python-style whitespace strip of both ends (what `float(...)`,
`int(...)` and `.strip()` do). -/
def trimChars (cs : List Char) : List Char :=
  ((cs.dropWhile Char.isWhitespace).reverse.dropWhile Char.isWhitespace).reverse

/-- Python `str.split()` (no argument): runs of whitespace separate
tokens, empty tokens are dropped.  `acc` holds the current token
reversed. -/
def splitWSAux : List Char → List Char → List (List Char)
  | [], acc => if acc.isEmpty then [] else [acc.reverse]
  | c :: cs, acc =>
      if c.isWhitespace then
        if acc.isEmpty then splitWSAux cs [] else acc.reverse :: splitWSAux cs []
      else splitWSAux cs (c :: acc)

/-- Python `str.split()` of a string's characters. -/
def splitWS (cs : List Char) : List (List Char) := splitWSAux cs []

/-- Unsigned decimal literal: digits, optionally followed by `.` and more
digits; at least one digit overall (Python accepts `"5."` and `".5"`). -/
def parseUFloat (cs : List Char) : Option ℚ :=
  let intPart := cs.takeWhile Char.isDigit
  let rest := cs.dropWhile Char.isDigit
  match rest with
  | [] => if intPart.isEmpty then none else some (digitsVal intPart : ℚ)
  | '.' :: fr =>
      if fr.all Char.isDigit && !(intPart.isEmpty && fr.isEmpty) then
        some ((digitsVal intPart : ℚ) + (digitsVal fr : ℚ) / 10 ^ fr.length)
      else none
  | _ => none

/-- Python `float(s)` on a decimal literal: strip whitespace, optional
sign, unsigned literal. -/
def parseFloatStr (s : String) : Option ℚ :=
  match trimChars s.toList with
  | '-' :: rest => (parseUFloat rest).map (fun q => -q)
  | '+' :: rest => parseUFloat rest
  | cs => parseUFloat cs

/-- Python `int(...)` on a character list: optional sign, nonempty
digits. -/
def parseIntCs (cs : List Char) : Option ℤ :=
  match cs with
  | '-' :: rest =>
      if rest.all Char.isDigit && !rest.isEmpty then some (-(digitsVal rest : ℤ)) else none
  | '+' :: rest =>
      if rest.all Char.isDigit && !rest.isEmpty then some (digitsVal rest : ℤ) else none
  | cs0 =>
      if cs0.all Char.isDigit && !cs0.isEmpty then some (digitsVal cs0 : ℤ) else none

/-- Python `int(s)`: strip whitespace, optional sign, nonempty digits. -/
def parseIntStr (s : String) : Option ℤ :=
  parseIntCs (trimChars s.toList)

/-- `pd.to_numeric(col, errors="coerce")` on one cell: parse, NaN on
failure. -/
def toNumericCoerce (s : String) : PVal :=
  match parseFloatStr s with
  | some q => PVal.num q
  | none => PVal.nan

/-- `.replace("[,]", "", regex=True)` on one cell: delete commas. -/
def stripCommas (s : String) : String :=
  String.mk (s.toList.filter (fun c => !(c = ',')))

/-- The three successive regex replaces on the income column: delete `,`,
`+` and `-` characters. -/
def stripIncomeChars (s : String) : String :=
  String.mk (s.toList.filter (fun c => !(c = ',' || c = '+' || c = '-')))

/-- `lambda x: int(x.split()[-1].strip())`: last whitespace-delimited token
of the geography label, parsed as an integer (`none` when the label has no
token or the token is not an integer literal, where Python raises). -/
def extractZip (s : String) : Option ℤ :=
  match (splitWS s.toList).getLast? with
  | none => none
  | some t => parseIntCs (trimChars t)

/-- All-or-nothing map, the effect of a column conversion that raises on
any bad cell (`astype`, or `.apply` of a raising lambda). -/
def mapOpt {α β : Type} (f : α → Option β) : List α → Option (List β)
  | [] => some []
  | a :: l =>
      match f a, mapOpt f l with
      | some b, some bs => some (b :: bs)
      | _, _ => none

/-- A row of the raw scraped-listings table (relevant columns; all text
except as scraped). -/
structure RawHousing where
  price : String
  bedrooms : String
  bathrooms : String
  sqft : String
  zipcode : String
deriving DecidableEq, Repr

/-- A row of the table returned by `preprocess_scraped_listings`. -/
structure Listing where
  price : PVal
  bedrooms : PVal
  bathrooms : PVal
  sqft : PVal
  pricePerSqFt : PVal
  zipcode : ℤ
deriving DecidableEq, Repr

/-- `preprocess_scraped_listings`: `Price` via `format_price` (`fp`),
`Bedrooms`/`Bathrooms` via `to_numeric(errors="coerce")`, `SqFt` comma-strip
then `astype(float)` (raises on failure), `Price_Per_SqFt = Price / SqFt`,
`Zipcode` `astype(int)` (raises on failure). -/
def preprocess_scraped_listings (fp : String → PVal) (df : List RawHousing) :
    Option (List Listing) :=
  mapOpt (fun r =>
    match parseFloatStr (stripCommas r.sqft), parseIntStr r.zipcode with
    | some sq, some z =>
        some { price := fp r.price
               bedrooms := toNumericCoerce r.bedrooms
               bathrooms := toNumericCoerce r.bathrooms
               sqft := PVal.num sq
               pricePerSqFt := pdiv (fp r.price) (PVal.num sq)
               zipcode := z }
    | _, _ => none) df

/-- A row of the raw census income table (relevant columns: the geography
label and the median-income text; other columns are discarded by the
code's column selection). -/
structure RawIncome where
  geo : String
  income : String
deriving DecidableEq, Repr

/-- A row of the table returned by `preprocess_income_data`
(`Household_Median_Income` as float, `Zipcode`). -/
structure Income where
  income : PVal
  zipcode : ℤ
deriving DecidableEq, Repr

/-- `preprocess_income_data`: extract `Zipcode` from the geography label
(for every row, before any filtering — a bad label anywhere raises), keep
the income and zipcode columns, drop rows whose income text is exactly
`"-"`, strip `,`/`+`/`-`, `astype(float)` (raises on failure). -/
def preprocess_income_data (df : List RawIncome) : Option (List Income) :=
  match mapOpt (fun r => (extractZip r.geo).map (fun z => (r.income, z))) df with
  | none => none
  | some wz =>
      mapOpt (fun p =>
          (parseFloatStr (stripIncomeChars p.1)).map
            (fun q => ({ income := PVal.num q, zipcode := p.2 } : Income)))
        (wz.filter (fun p => !(p.1 == "-")))

/-- A row of `df_analysis = df_housing.merge(df_income, on="Zipcode",
how="left")`: all listing columns plus `Household_Median_Income` (NaN when
the zipcode has no income row). -/
structure JoinedRow where
  price : PVal
  bedrooms : PVal
  bathrooms : PVal
  sqft : PVal
  pricePerSqFt : PVal
  zipcode : ℤ
  income : PVal
deriving DecidableEq, Repr

/-- Attach an income value to a listing row (column layout of the merge
result). -/
def mkJoined (l : Listing) (v : PVal) : JoinedRow :=
  { price := l.price, bedrooms := l.bedrooms, bathrooms := l.bathrooms
    sqft := l.sqft, pricePerSqFt := l.pricePerSqFt, zipcode := l.zipcode
    income := v }

/-- `pd.merge(..., on="Zipcode", how="left")` against the income table:
each left row is kept in order; it is repeated once per matching income
row (in income-table order), and kept once with NaN income when no income
row matches. -/
def leftMergeIncome {α β : Type} (key : α → ℤ) (mk : α → PVal → β)
    (left : List α) (inc : List Income) : List β :=
  left.flatMap (fun a =>
    match inc.filter (fun r => r.zipcode == key a) with
    | [] => [mk a PVal.nan]
    | ms => ms.map (fun r => mk a r.income))

/-- The join at line 171:
`df_housing.merge(df_income, on="Zipcode", how="left")`. -/
def mergeHousingIncome (h : List Listing) (i : List Income) : List JoinedRow :=
  leftMergeIncome (fun l => l.zipcode) mkJoined h i

/-- A row of the per-listing metric table: the joined columns plus
`Affordable_Price` and `Affordability_Gap`. -/
structure HouseMetric where
  price : PVal
  bedrooms : PVal
  bathrooms : PVal
  sqft : PVal
  pricePerSqFt : PVal
  zipcode : ℤ
  income : PVal
  affordablePrice : PVal
  gap : PVal
deriving DecidableEq, Repr

/-- One row of `calculate_house_affordabilty`:
`Affordable_Price = Household_Median_Income * 3.0`,
`Affordability_Gap = Affordable_Price - Price` (raw, pre-clamp). -/
def mkHouseMetric (r : JoinedRow) : HouseMetric :=
  { price := r.price, bedrooms := r.bedrooms, bathrooms := r.bathrooms
    sqft := r.sqft, pricePerSqFt := r.pricePerSqFt, zipcode := r.zipcode
    income := r.income
    affordablePrice := pmul r.income (PVal.num 3)
    gap := psub (pmul r.income (PVal.num 3)) r.price }

/-- `calculate_house_affordabilty`: add the two affordability columns. -/
def calculate_house_affordabilty (df : List JoinedRow) : List HouseMetric :=
  df.map mkHouseMetric

/-- Insert into a ≤-sorted list of integers. -/
def insertInt (n : ℤ) : List ℤ → List ℤ
  | [] => [n]
  | m :: l => if n ≤ m then n :: m :: l else m :: insertInt n l

/-- Sort integers ascending (pandas `groupby` sorts group keys). -/
def sortInts : List ℤ → List ℤ
  | [] => []
  | n :: l => insertInt n (sortInts l)

/-- First occurrences, in order (the distinct group keys before sorting). -/
def dedupKeys : List ℤ → List ℤ
  | [] => []
  | n :: l => if n ∈ dedupKeys l ∨ n ∈ l then dedupKeys l else n :: dedupKeys l

/-- Insert into a list of cells sorted by `pleB` (only used on non-NaN
cells, where `pleB` is a total order). -/
def insertP (v : PVal) : List PVal → List PVal
  | [] => [v]
  | w :: l => if pleB v w then v :: w :: l else w :: insertP v l

/-- Sort non-NaN cells ascending. -/
def sortP : List PVal → List PVal
  | [] => []
  | v :: l => insertP v (sortP l)

/-- Group aggregation `("Price", "min")`: pandas skips NaN; NaN when every
value is NaN. -/
def aggMin (vs : List PVal) : PVal :=
  match sortP (vs.filter (fun v => !(v == PVal.nan))) with
  | [] => PVal.nan
  | w :: _ => w

/-- Group aggregation `("Price", "max")`: pandas skips NaN; NaN when every
value is NaN. -/
def aggMax (vs : List PVal) : PVal :=
  match (sortP (vs.filter (fun v => !(v == PVal.nan)))).getLast? with
  | none => PVal.nan
  | some w => w

/-- Group aggregation `("Price", "median")`: pandas skips NaN, sorts the
rest, takes the middle element (odd count) or the mean of the two middle
elements (even count). -/
def aggMedian (vs : List PVal) : PVal :=
  let ws := sortP (vs.filter (fun v => !(v == PVal.nan)))
  if ws.length = 0 then PVal.nan
  else if ws.length % 2 = 1 then ws.getD (ws.length / 2) PVal.nan
  else pdiv (padd (ws.getD (ws.length / 2 - 1) PVal.nan)
                  (ws.getD (ws.length / 2) PVal.nan))
            (PVal.num 2)

/-- A row of the zip-level aggregate table. -/
structure ZipAgg where
  zipcode : ℤ
  minPrice : PVal
  maxPrice : PVal
  medianPrice : PVal
  income : PVal
  hpi : PVal
  unaffordable : Bool
deriving DecidableEq, Repr

/-- The `groupby("Zipcode").agg(...)` result row, before the income merge. -/
structure PriceAgg where
  zipcode : ℤ
  minPrice : PVal
  maxPrice : PVal
  medianPrice : PVal
deriving DecidableEq, Repr

/-- The `groupby("Zipcode").agg(...)` row for key `z`. -/
def priceAggOf (df : List JoinedRow) (z : ℤ) : PriceAgg :=
  { zipcode := z
    minPrice := aggMin ((df.filter (fun r => r.zipcode == z)).map (fun r => r.price))
    maxPrice := aggMax ((df.filter (fun r => r.zipcode == z)).map (fun r => r.price))
    medianPrice := aggMedian ((df.filter (fun r => r.zipcode == z)).map (fun r => r.price)) }

/-- The derived columns of one zip-aggregate row, from a grouped row and
its merged income value:
`HPI = round(Median_Price / Household_Median_Income, 1)`,
`Unaffordable = Min_Price > Household_Median_Income * 3`. -/
def mkZipAgg (p : PriceAgg × PVal) : ZipAgg :=
  { zipcode := p.1.zipcode, minPrice := p.1.minPrice
    maxPrice := p.1.maxPrice, medianPrice := p.1.medianPrice
    income := p.2
    hpi := pround1 (pdiv p.1.medianPrice p.2)
    unaffordable := pltB (pmul p.2 (PVal.num 3)) p.1.minPrice }

/-- `zipcode_aggregates`: group `df` by `Zipcode` (keys sorted ascending)
taking min/max/median of `Price`; left-merge the income table back on
`Zipcode`; then compute `HPI` and `Unaffordable` per row. -/
def zipcode_aggregates (df : List JoinedRow) (dfIncome : List Income) : List ZipAgg :=
  (leftMergeIncome (fun a => a.zipcode) (fun a v => (a, v))
      ((sortInts (dedupKeys (df.map (fun r => r.zipcode)))).map (priceAggOf df))
      dfIncome).map mkZipAgg

/-- The clamp at lines 180-184: `np.where(gap < 0, gap, 0)` — keep the raw
gap only when it is negative, else report 0. -/
def clampGap (r : HouseMetric) : HouseMetric :=
  { r with gap := if pltB r.gap (PVal.num 0) then r.gap else PVal.num 0 }

/-- `calculate_affordability_metrics`: preprocess both tables, left-join
them on `Zipcode`, build the zip-level table and the per-listing table
(raw gaps clamped), and return the pair.  `none` when either preprocessing
step raises. -/
def calculate_affordability_metrics (fp : String → PVal)
    (dfHousing : List RawHousing) (dfIncome : List RawIncome) :
    Option (List ZipAgg × List HouseMetric) :=
  match preprocess_scraped_listings fp dfHousing with
  | none => none
  | some h =>
      match preprocess_income_data dfIncome with
      | none => none
      | some i =>
          let analysis := mergeHousingIncome h i
          let zipTbl := zipcode_aggregates analysis i
          let houseTbl := (calculate_house_affordabilty analysis).map clampGap
          some (zipTbl, houseTbl)

/-!
Object-level (state-passing) model of `preprocess_scraped_listings`, used
for the frame/effect claim.  In Python the function's column assignments
(`df_housing["Price"] = ...` etc.) mutate the very DataFrame object the
caller passed in, and `return df_housing` returns that same object.  A
cell of the object is a `Cell` (its runtime type changes as columns are
converted); the function's semantics is a map from the initial state of
the argument object to `(final state of the argument object, returned
table)`.
-/

/-- A DataFrame cell as a runtime value: string, float, or integer. -/
inductive Cell
  | cstr (s : String)
  | cval (v : PVal)
  | cint (n : ℤ)
deriving DecidableEq, Repr

/-- A row of the housing DataFrame object; `ppsf` is `none` while the
`Price_Per_SqFt` column does not exist yet. -/
structure HRowObj where
  price : Cell
  bedrooms : Cell
  bathrooms : Cell
  sqft : Cell
  zipcode : Cell
  ppsf : Option Cell
deriving DecidableEq, Repr

/-- The combined effect of the column operations of
`preprocess_scraped_listings` on one row of the object (raw cells are
strings, as scraped); `none` where a conversion raises. -/
def processRowObj (fp : String → PVal) (r : HRowObj) : Option HRowObj :=
  match r.price, r.bedrooms, r.bathrooms, r.sqft, r.zipcode with
  | Cell.cstr p, Cell.cstr bd, Cell.cstr ba, Cell.cstr sq, Cell.cstr z =>
      match parseFloatStr (stripCommas sq), parseIntStr z with
      | some sqv, some zv =>
          some { price := Cell.cval (fp p)
                 bedrooms := Cell.cval (toNumericCoerce bd)
                 bathrooms := Cell.cval (toNumericCoerce ba)
                 sqft := Cell.cval (PVal.num sqv)
                 zipcode := Cell.cint zv
                 ppsf := some (Cell.cval (pdiv (fp p) (PVal.num sqv))) }
      | _, _ => none
  | _, _, _, _, _ => none

/-- State-passing semantics of `preprocess_scraped_listings`: the column
assignments are performed on the argument object in place and the function
returns that object, so the final state of the argument equals the
returned table. -/
def preprocess_scraped_listings_obj (fp : String → PVal) (df : List HRowObj) :
    Option (List HRowObj × List HRowObj) :=
  match mapOpt (processRowObj fp) df with
  | none => none
  | some out => some (out, out)

/-- A raw listing row as the housing DataFrame object initially holds it. -/
def encodeRaw (r : RawHousing) : HRowObj :=
  { price := Cell.cstr r.price, bedrooms := Cell.cstr r.bedrooms
    bathrooms := Cell.cstr r.bathrooms, sqft := Cell.cstr r.sqft
    zipcode := Cell.cstr r.zipcode, ppsf := none }

/-- A processed listing row as the housing DataFrame object holds it after
the call. -/
def encodeListing (l : Listing) : HRowObj :=
  { price := Cell.cval l.price, bedrooms := Cell.cval l.bedrooms
    bathrooms := Cell.cval l.bathrooms, sqft := Cell.cval l.sqft
    zipcode := Cell.cint l.zipcode, ppsf := some (Cell.cval l.pricePerSqFt) }

/-- A representative black-box price conversion standing in for
`util.format_price` (strip commas, parse, NaN on failure); the spec treats
`format_price` as an out-of-scope total text parser, and no theorem below
depends on this particular choice. -/
def fp0 (s : String) : PVal := toNumericCoerce (stripCommas s)

/-- `Household_Median_Income` carried by the first matching income row for
a key, NaN when there is none (the value a unique-key left merge
attaches). -/
def lookupIncome (i : List Income) (z : ℤ) : PVal :=
  match i.filter (fun r => r.zipcode == z) with
  | [] => PVal.nan
  | r :: _ => r.income

/-! ### Helper lemmas -/

attribute [local semireducible] Rat.mul Rat.inv Rat.add Rat.sub Rat.ofScientific

/-- Every element of a successful `mapOpt` run comes from some input
element. -/
theorem mapOpt_mem {α β : Type} {f : α → Option β} {l : List α} {out : List β}
    (h : mapOpt f l = some out) : ∀ b ∈ out, ∃ a ∈ l, f a = some b := by
  induction l generalizing out with
  | nil =>
      simp only [mapOpt, Option.some.injEq] at h
      subst h; intro b hb; cases hb
  | cons a t ih =>
      simp only [mapOpt] at h
      cases hfa : f a with
      | none => rw [hfa] at h; cases h
      | some b0 =>
          rw [hfa] at h
          cases hmt : mapOpt f t with
          | none => rw [hmt] at h; cases h
          | some bs =>
              rw [hmt] at h
              simp only [Option.some.injEq] at h
              subst h
              intro b hb
              rcases List.mem_cons.mp hb with hb | hb
              · exact ⟨a, List.mem_cons_self a t, hb ▸ hfa⟩
              · rcases ih hmt b hb with ⟨a1, ha1, hfa1⟩
                exact ⟨a1, List.mem_cons_of_mem a ha1, hfa1⟩

/-- `countP` over a successful `mapOpt` run equals `countP` of the pulled
back predicate over the input. -/
theorem mapOpt_countP {α β : Type} {f : α → Option β} {l : List α} {out : List β}
    (h : mapOpt f l = some out) (q : β → Bool) :
    out.countP q = l.countP (fun a => ((f a).map q).getD false) := by
  induction l generalizing out with
  | nil =>
      simp only [mapOpt, Option.some.injEq] at h
      subst h; rfl
  | cons a t ih =>
      simp only [mapOpt] at h
      cases hfa : f a with
      | none => rw [hfa] at h; cases h
      | some b0 =>
          rw [hfa] at h
          cases hmt : mapOpt f t with
          | none => rw [hmt] at h; cases h
          | some bs =>
              rw [hmt] at h
              simp only [Option.some.injEq] at h
              subst h
              rw [List.countP_cons, List.countP_cons, ih hmt, hfa]
              rfl

/-- Strict `pltB` implies non-strict `pleB`. -/
theorem pltB_pleB {a b : PVal} (h : pltB a b = true) : pleB a b = true := by
  cases a <;> cases b <;> simp_all [pltB, pleB]
  exact le_of_lt h

/-- Dividing by a zero cell never yields a finite cell. -/
theorem pdiv_zero_not_finite (v : PVal) : isFinite (pdiv v (PVal.num 0)) = false := by
  cases v with
  | num a =>
      by_cases h0 : a > 0
      · simp [pdiv, h0, isFinite]
      · by_cases h1 : a < 0 <;> simp [pdiv, h0, h1, isFinite]
  | inf => simp [pdiv, isFinite]
  | negInf => simp [pdiv, isFinite]
  | nan => rfl

/-- `round(x, 1)` keeps non-finite cells non-finite. -/
theorem pround1_not_finite {v : PVal} (h : isFinite v = false) :
    isFinite (pround1 v) = false := by
  cases v <;> simp_all [pround1, isFinite]

/-- Claim C1: for every row of the per-listing table returned by
`calculate_affordability_metrics`, the reported `Affordability_Gap` is
`≤ 0` in the IEEE order; the raw gap `Affordable_Price - Price` is kept
exactly when it is negative and replaced by `0` otherwise. -/
theorem gap_clamped_nonpositive (fp : String → PVal)
    (dfH : List RawHousing) (dfI : List RawIncome)
    (ztbl : List ZipAgg) (htbl : List HouseMetric)
    (h : calculate_affordability_metrics fp dfH dfI = some (ztbl, htbl)) :
    ∀ row ∈ htbl, pleB row.gap (PVal.num 0) = true ∧
      (pltB (psub row.affordablePrice row.price) (PVal.num 0) = true →
        row.gap = psub row.affordablePrice row.price) ∧
      (pltB (psub row.affordablePrice row.price) (PVal.num 0) = false →
        row.gap = PVal.num 0) := by
  cases hH : preprocess_scraped_listings fp dfH with
  | none => rw [calculate_affordability_metrics, hH] at h; cases h
  | some hs =>
  cases hI : preprocess_income_data dfI with
  | none => rw [calculate_affordability_metrics, hH, hI] at h; cases h
  | some is =>
  rw [calculate_affordability_metrics, hH, hI] at h
  simp only [Option.some.injEq, Prod.mk.injEq] at h
  obtain ⟨-, hh⟩ := h
  subst hh
  intro row hrow
  rw [calculate_house_affordabilty, List.map_map] at hrow
  rcases List.mem_map.mp hrow with ⟨j, -, rfl⟩
  simp only [Function.comp_apply]
  have hap : (clampGap (mkHouseMetric j)).affordablePrice = pmul j.income (PVal.num 3) := rfl
  have hpr : (clampGap (mkHouseMetric j)).price = j.price := rfl
  have hgap : (clampGap (mkHouseMetric j)).gap =
      if pltB (psub (pmul j.income (PVal.num 3)) j.price) (PVal.num 0) = true
      then psub (pmul j.income (PVal.num 3)) j.price else PVal.num 0 := by
    simp [clampGap, mkHouseMetric]
  rw [hap, hpr, hgap]
  cases hlt : pltB (psub (pmul j.income (PVal.num 3)) j.price) (PVal.num 0) with
  | true =>
      refine ⟨by simpa using pltB_pleB hlt, fun _ => by simp, fun hc => absurd hc (by decide)⟩
  | false =>
      refine ⟨by simp [pleB], fun hc => absurd hc (by decide), fun _ => by simp⟩

/-- NaN absorbs multiplication on the left. -/
theorem pmul_nan_left (v : PVal) : pmul PVal.nan v = PVal.nan := by
  cases v <;> rfl

/-- NaN absorbs subtraction on the left. -/
theorem psub_nan_left (v : PVal) : psub PVal.nan v = PVal.nan := by
  cases v <;> rfl

/-- A NaN left operand makes `<` false. -/
theorem pltB_nan_left (v : PVal) : pltB PVal.nan v = false := by
  cases v <;> rfl

/-- NaN absorbs division on the right. -/
theorem pdiv_nan_right (v : PVal) : pdiv v PVal.nan = PVal.nan := by
  cases v <;> rfl

/-- Successful `calculate_affordability_metrics` runs decompose into the
two preprocessing steps, the join, and the two derived tables. -/
theorem calc_metrics_cases (fp : String → PVal) (dfH : List RawHousing)
    (dfI : List RawIncome) (ztbl : List ZipAgg) (htbl : List HouseMetric)
    (h : calculate_affordability_metrics fp dfH dfI = some (ztbl, htbl)) :
    ∃ hs is, preprocess_scraped_listings fp dfH = some hs ∧
      preprocess_income_data dfI = some is ∧
      ztbl = zipcode_aggregates (mergeHousingIncome hs is) is ∧
      htbl = (calculate_house_affordabilty (mergeHousingIncome hs is)).map clampGap := by
  cases hH : preprocess_scraped_listings fp dfH with
  | none => rw [calculate_affordability_metrics, hH] at h; cases h
  | some hs =>
  cases hI : preprocess_income_data dfI with
  | none => rw [calculate_affordability_metrics, hH, hI] at h; cases h
  | some is =>
  rw [calculate_affordability_metrics, hH, hI] at h
  simp only [Option.some.injEq, Prod.mk.injEq] at h
  exact ⟨hs, is, rfl, rfl, h.1.symm, h.2.symm⟩

/-- Every row of the per-listing table is a clamped `mkHouseMetric` of a
joined row. -/
theorem house_table_mem {df : List JoinedRow} {row : HouseMetric}
    (hrow : row ∈ (calculate_house_affordabilty df).map clampGap) :
    ∃ j, j ∈ df ∧ row = clampGap (mkHouseMetric j) := by
  rw [calculate_house_affordabilty, List.map_map] at hrow
  rcases List.mem_map.mp hrow with ⟨j, hj, heq⟩
  exact ⟨j, hj, heq.symm⟩

/-- Every row of the zip-aggregate table is `mkZipAgg` of a merged pair. -/
theorem zip_table_mem {df : List JoinedRow} {inc : List Income} {row : ZipAgg}
    (hrow : row ∈ zipcode_aggregates df inc) :
    ∃ t, row = mkZipAgg t := by
  rw [zipcode_aggregates] at hrow
  rcases List.mem_map.mp hrow with ⟨t, -, heq⟩
  exact ⟨t, heq.symm⟩

/-- Claim C9: a listing whose postal code has no matching income row
(NaN `Household_Median_Income` after the left join) gets
`Affordability_Gap` exactly `0` — the NaN raw gap fails the `< 0` test of
the clamp — while its `Affordable_Price` stays NaN. -/
theorem null_income_gap_reported_zero (fp : String → PVal)
    (dfH : List RawHousing) (dfI : List RawIncome)
    (ztbl : List ZipAgg) (htbl : List HouseMetric)
    (h : calculate_affordability_metrics fp dfH dfI = some (ztbl, htbl)) :
    ∀ row ∈ htbl, row.income = PVal.nan →
      row.gap = PVal.num 0 ∧ row.affordablePrice = PVal.nan := by
  rcases calc_metrics_cases fp dfH dfI ztbl htbl h with ⟨hs, is, -, -, -, hh⟩
  subst hh
  intro row hrow hinc
  rcases house_table_mem hrow with ⟨j, -, hj⟩
  subst hj
  have hji : j.income = PVal.nan := hinc
  constructor
  · show (if pltB (psub (pmul j.income (PVal.num 3)) j.price) (PVal.num 0)
        then psub (pmul j.income (PVal.num 3)) j.price else PVal.num 0) = PVal.num 0
    rw [hji, pmul_nan_left, psub_nan_left, pltB_nan_left]
    rfl
  · show pmul j.income (PVal.num 3) = PVal.nan
    rw [hji, pmul_nan_left]

/-- Claim C10: a postal-code group with no matching income row (NaN
income after the aggregate-level left merge) has `Unaffordable = false`,
because `Min_Price > NaN * 3` evaluates to false. -/
theorem null_income_not_unaffordable (fp : String → PVal)
    (dfH : List RawHousing) (dfI : List RawIncome)
    (ztbl : List ZipAgg) (htbl : List HouseMetric)
    (h : calculate_affordability_metrics fp dfH dfI = some (ztbl, htbl)) :
    ∀ row ∈ ztbl, row.income = PVal.nan → row.unaffordable = false := by
  rcases calc_metrics_cases fp dfH dfI ztbl htbl h with ⟨hs, is, -, -, hz, -⟩
  subst hz
  intro row hrow hinc
  rcases zip_table_mem hrow with ⟨t, ht⟩
  subst ht
  have hti : t.2 = PVal.nan := hinc
  show pltB (pmul t.2 (PVal.num 3)) t.1.minPrice = false
  rw [hti, pmul_nan_left, pltB_nan_left]

/-- Claim C8: when a postal-code group's income is zero or NaN (null),
the `HPI` column is computed without error and is non-finite: the
division yields an infinity or NaN and `round(x, 1)` passes it through. -/
theorem hpi_nonfinite_zero_or_null_income (fp : String → PVal)
    (dfH : List RawHousing) (dfI : List RawIncome)
    (ztbl : List ZipAgg) (htbl : List HouseMetric)
    (h : calculate_affordability_metrics fp dfH dfI = some (ztbl, htbl)) :
    ∀ row ∈ ztbl, (row.income = PVal.num 0 ∨ row.income = PVal.nan) →
      isFinite row.hpi = false := by
  rcases calc_metrics_cases fp dfH dfI ztbl htbl h with ⟨hs, is, -, -, hz, -⟩
  subst hz
  intro row hrow hinc
  rcases zip_table_mem hrow with ⟨t, ht⟩
  subst ht
  show isFinite (pround1 (pdiv t.1.medianPrice t.2)) = false
  rcases hinc with h0 | h0
  · have hti : t.2 = PVal.num 0 := h0
    rw [hti]
    exact pround1_not_finite (pdiv_zero_not_finite t.1.medianPrice)
  · have hti : t.2 = PVal.nan := h0
    rw [hti, pdiv_nan_right]
    rfl

/-- Claim C5: in the aggregate table, `Unaffordable` is exactly the IEEE
comparison `Household_Median_Income * 3 < Min_Price`; on numeric cells it
is true iff `min_price > income * 3` (so the spec scenarios hold). -/
theorem unaffordable_flag_iff (fp : String → PVal)
    (dfH : List RawHousing) (dfI : List RawIncome)
    (ztbl : List ZipAgg) (htbl : List HouseMetric)
    (h : calculate_affordability_metrics fp dfH dfI = some (ztbl, htbl)) :
    ∀ row ∈ ztbl, row.unaffordable = pltB (pmul row.income (PVal.num 3)) row.minPrice ∧
      ∀ q p : ℚ, row.income = PVal.num q → row.minPrice = PVal.num p →
        (row.unaffordable = true ↔ q * 3 < p) := by
  rcases calc_metrics_cases fp dfH dfI ztbl htbl h with ⟨hs, is, -, -, hz, -⟩
  subst hz
  intro row hrow
  rcases zip_table_mem hrow with ⟨t, ht⟩
  subst ht
  refine ⟨rfl, fun q p hq hp => ?_⟩
  have hti : t.2 = PVal.num q := hq
  have htm : t.1.minPrice = PVal.num p := hp
  show pltB (pmul t.2 (PVal.num 3)) t.1.minPrice = true ↔ q * 3 < p
  rw [hti, htm]
  show decide (q * 3 < p) = true ↔ q * 3 < p
  exact decide_eq_true_iff

/-- Claim C7: every row of the table returned by
`preprocess_scraped_listings` has `Price_Per_SqFt` equal to
`Price / SqFt` exactly, and a zero `SqFt` produces a non-finite value
(never an error or a sanitized substitute). -/
theorem price_per_sqft_div (fp : String → PVal) (df : List RawHousing)
    (out : List Listing) (h : preprocess_scraped_listings fp df = some out) :
    ∀ o ∈ out, o.pricePerSqFt = pdiv o.price o.sqft ∧
      (o.sqft = PVal.num 0 → isFinite o.pricePerSqFt = false) := by
  intro o ho
  rcases mapOpt_mem h o ho with ⟨r, -, hr⟩
  cases hsq : parseFloatStr (stripCommas r.sqft) with
  | none => rw [hsq] at hr; cases hr
  | some sq =>
  cases hz : parseIntStr r.zipcode with
  | none => rw [hsq, hz] at hr; cases hr
  | some z =>
  rw [hsq, hz] at hr
  simp only [Option.some.injEq] at hr
  subst hr
  refine ⟨rfl, fun h0 => ?_⟩
  have hsq0 : sq = 0 := by injection h0
  subst hsq0
  exact pdiv_zero_not_finite (fp r.price)

/-- With pairwise-distinct zipcodes, filtering the income table by a key
leaves zero or one row. -/
theorem filter_zip_unique {i : List Income}
    (huniq : List.Pairwise (fun a b => a.zipcode ≠ b.zipcode) i) (z : ℤ) :
    i.filter (fun r => r.zipcode == z) = [] ∨
      ∃ r : Income, i.filter (fun r0 => r0.zipcode == z) = [r] := by
  induction i with
  | nil => exact Or.inl rfl
  | cons a t ih =>
      rcases List.pairwise_cons.mp huniq with ⟨ha, ht⟩
      by_cases hz : a.zipcode = z
      · refine Or.inr ⟨a, ?_⟩
        rw [List.filter_cons_of_pos (by simp [hz])]
        have ht0 : t.filter (fun r0 => r0.zipcode == z) = [] := by
          rw [List.filter_eq_nil_iff]
          intro b hb
          simp only [beq_iff_eq]
          intro hbz
          exact (ha b hb) (hz.trans hbz.symm)
        rw [ht0]
      · rw [List.filter_cons_of_neg (by simp [hz])]
        exact ih ht

/-- Claim C2 (amended): whenever the normalized income table has at most
one row per postal code, the left join of `calculate_affordability_metrics`
produces exactly one joined row per listing, in listing order — the row
carrying `lookupIncome` of the listing's zipcode, i.e. NaN (null) income
when no income row matches, so unmatched listings are retained, not
dropped.  (Without that uniqueness hypothesis the claim fails: see the
counterexample.) -/
theorem join_one_row_per_listing (hl : List Listing) (i : List Income)
    (huniq : List.Pairwise (fun a b => a.zipcode ≠ b.zipcode) i) :
    mergeHousingIncome hl i = hl.map (fun l => mkJoined l (lookupIncome i l.zipcode)) ∧
      (mergeHousingIncome hl i).length = hl.length := by
  have main : mergeHousingIncome hl i =
      hl.map (fun l => mkJoined l (lookupIncome i l.zipcode)) := by
    induction hl with
    | nil => rfl
    | cons l t ih =>
        simp only [mergeHousingIncome, leftMergeIncome, List.flatMap_cons,
          List.map_cons] at ih ⊢
        rw [ih]
        rcases filter_zip_unique huniq l.zipcode with hf | ⟨r, hf⟩ <;>
          simp [lookupIncome, hf]
  exact ⟨main, by rw [main]; exact List.length_map _ _⟩

/-- A list whose mapped keys are pairwise distinct has at most one element
with any given key. -/
theorem countP_key_le_one {α : Type} {g : α → Option ℤ} {l : List α}
    (hp : List.Pairwise (fun a b => g a ≠ g b) l) (z : ℤ) :
    l.countP (fun a => g a == some z) ≤ 1 := by
  induction l with
  | nil => simp
  | cons a t ih =>
      rcases List.pairwise_cons.mp hp with ⟨ha, ht⟩
      rw [List.countP_cons]
      by_cases hz : g a = some z
      · have h0 : t.countP (fun b => g b == some z) = 0 := by
          rw [List.countP_eq_zero]
          intro b hb
          simp only [beq_iff_eq]
          intro hgb
          exact ha b hb (hz.trans hgb.symm)
        rw [h0]
        simp [hz]
      · have hfa : (g a == some z) = false := by simp [hz]
        rw [hfa]
        simpa using ih ht

/-- Claim C3 (amended): `preprocess_income_data` never merges or
duplicates rows — per postal code, the output has at most as many rows as
the raw table has rows whose geography label yields that code — hence at
most one row per postal code whenever the raw rows' extracted postal
codes are pairwise distinct.  For every raw table (with duplicate labels)
this fails: see the counterexample. -/
theorem income_rows_per_zip_bound (df : List RawIncome) (out : List Income)
    (h : preprocess_income_data df = some out) (z : ℤ) :
    (out.filter (fun o => o.zipcode == z)).length ≤
        (df.filter (fun r => extractZip r.geo == some z)).length ∧
      (List.Pairwise (fun a b => extractZip a.geo ≠ extractZip b.geo) df →
        (out.filter (fun o => o.zipcode == z)).length ≤ 1) := by
  rw [preprocess_income_data] at h
  cases h1 : mapOpt (fun r => (extractZip r.geo).map (fun w => (r.income, w))) df with
  | none => rw [h1] at h; cases h
  | some wz =>
  rw [h1] at h
  simp only at h
  have c1 : out.countP (fun o => o.zipcode == z) =
      (wz.filter (fun p => !(p.1 == "-"))).countP
        (fun p => (((parseFloatStr (stripIncomeChars p.1)).map
            (fun q => ({ income := PVal.num q, zipcode := p.2 } : Income))).map
          (fun o => o.zipcode == z)).getD false) :=
    mapOpt_countP h _
  have c2 : (wz.filter (fun p => !(p.1 == "-"))).countP
        (fun p => (((parseFloatStr (stripIncomeChars p.1)).map
            (fun q => ({ income := PVal.num q, zipcode := p.2 } : Income))).map
          (fun o => o.zipcode == z)).getD false) ≤
      (wz.filter (fun p => !(p.1 == "-"))).countP (fun p => p.2 == z) := by
    apply List.countP_mono_left
    intro p hp
    cases hq : parseFloatStr (stripIncomeChars p.1) with
    | none => intro hx; simp at hx
    | some q => intro hx; simpa using hx
  have c3 : (wz.filter (fun p => !(p.1 == "-"))).countP (fun p => p.2 == z) ≤
      wz.countP (fun p => p.2 == z) :=
    (List.filter_sublist wz).countP_le _
  have c4 : wz.countP (fun p => p.2 == z) =
      df.countP (fun r => (((extractZip r.geo).map (fun w => (r.income, w))).map
        (fun p => p.2 == z)).getD false) :=
    mapOpt_countP h1 _
  have c5 : df.countP (fun r => (((extractZip r.geo).map (fun w => (r.income, w))).map
        (fun p => p.2 == z)).getD false) ≤
      df.countP (fun r => extractZip r.geo == some z) := by
    apply List.countP_mono_left
    intro r hr
    cases hw : extractZip r.geo with
    | none => intro hx; simp at hx
    | some w =>
        intro hx
        simp at hx
        simp [hx]
  have chain : out.countP (fun o => o.zipcode == z) ≤
      df.countP (fun r => extractZip r.geo == some z) := by
    rw [c1]
    refine le_trans c2 (le_trans c3 ?_)
    rw [c4]
    exact c5
  constructor
  · calc (out.filter (fun o => o.zipcode == z)).length
        = out.countP (fun o => o.zipcode == z) := (List.countP_eq_length_filter _ _).symm
      _ ≤ df.countP (fun r => extractZip r.geo == some z) := chain
      _ = (df.filter (fun r => extractZip r.geo == some z)).length :=
        List.countP_eq_length_filter _ _
  · intro hpw
    have hb := countP_key_le_one (g := fun r : RawIncome => extractZip r.geo) hpw z
    calc (out.filter (fun o => o.zipcode == z)).length
        = out.countP (fun o => o.zipcode == z) := (List.countP_eq_length_filter _ _).symm
      _ ≤ df.countP (fun r => extractZip r.geo == some z) := chain
      _ ≤ 1 := hb

/-- Claim C6: rows whose income text is exactly the no-data sentinel `"-"`
are dropped before string cleaning and never appear in the output; every
output row stems from a non-sentinel raw row whose income text, stripped
of `,`, `+` and `-` with no value adjustment, parses as a float. -/
theorem income_sentinel_dropped_and_parsed (df : List RawIncome) (out : List Income)
    (h : preprocess_income_data df = some out) :
    ∀ o ∈ out, ∃ r ∈ df, r.income ≠ "-" ∧ extractZip r.geo = some o.zipcode ∧
      ∃ q : ℚ, parseFloatStr (stripIncomeChars r.income) = some q ∧
        o.income = PVal.num q := by
  rw [preprocess_income_data] at h
  cases h1 : mapOpt (fun r => (extractZip r.geo).map (fun w => (r.income, w))) df with
  | none => rw [h1] at h; cases h
  | some wz =>
  rw [h1] at h
  simp only at h
  intro o ho
  rcases mapOpt_mem h o ho with ⟨p, hp, hpo⟩
  rcases List.mem_filter.mp hp with ⟨hpwz, hpkeep⟩
  rcases mapOpt_mem h1 p hpwz with ⟨r, hr, hrp⟩
  cases hw : extractZip r.geo with
  | none => rw [hw] at hrp; cases hrp
  | some w =>
  rw [hw] at hrp
  simp only [Option.map_some', Option.some.injEq] at hrp
  subst hrp
  cases hq : parseFloatStr (stripIncomeChars r.income) with
  | none => rw [hq] at hpo; cases hpo
  | some q =>
  rw [hq] at hpo
  simp only [Option.map_some', Option.some.injEq] at hpo
  subst hpo
  refine ⟨r, hr, by simpa using hpkeep, hw, q, hq, rfl⟩

/-- A successful `mapOpt` run transports along a per-element simulation. -/
theorem mapOpt_map_comm {α β γ δ : Type} {f : α → Option β} {g : γ → Option δ}
    {e : α → γ} {d : β → δ}
    (hcomm : ∀ a b, f a = some b → g (e a) = some (d b)) :
    ∀ {l : List α} {out : List β}, mapOpt f l = some out →
      mapOpt g (l.map e) = some (out.map d) := by
  intro l
  induction l with
  | nil =>
      intro out h
      simp only [mapOpt, Option.some.injEq] at h
      subst h; rfl
  | cons a t ih =>
      intro out h
      simp only [mapOpt] at h
      cases hfa : f a with
      | none => rw [hfa] at h; cases h
      | some b =>
      rw [hfa] at h
      cases hmt : mapOpt f t with
      | none => rw [hmt] at h; cases h
      | some bs =>
      rw [hmt] at h
      simp only [Option.some.injEq] at h
      subst h
      simp only [List.map_cons, mapOpt]
      rw [hcomm a b hfa, ih hmt]

/-- Claim C4 (amended): each stage's output is a pure function of its
input values — the object-level run agrees with the value-level model —
but `preprocess_scraped_listings` performs its column assignments on the
input object itself and returns that object: after the call the input
table's state equals the returned table, which in general differs from
the initial state (see the counterexample). -/
theorem listings_preprocess_state_eq_output (fp : String → PVal)
    (df : List RawHousing) (out : List Listing)
    (h : preprocess_scraped_listings fp df = some out) :
    preprocess_scraped_listings_obj fp (df.map encodeRaw) =
      some (out.map encodeListing, out.map encodeListing) := by
  have hcomm : ∀ (r : RawHousing) (l : Listing),
      (match parseFloatStr (stripCommas r.sqft), parseIntStr r.zipcode with
        | some sq, some z =>
            some { price := fp r.price
                   bedrooms := toNumericCoerce r.bedrooms
                   bathrooms := toNumericCoerce r.bathrooms
                   sqft := PVal.num sq
                   pricePerSqFt := pdiv (fp r.price) (PVal.num sq)
                   zipcode := z : Listing }
        | _, _ => none) = some l →
      processRowObj fp (encodeRaw r) = some (encodeListing l) := by
    intro r l hl
    cases hsq : parseFloatStr (stripCommas r.sqft) with
    | none => rw [hsq] at hl; cases hl
    | some sq =>
    cases hz : parseIntStr r.zipcode with
    | none => rw [hsq, hz] at hl; cases hl
    | some z =>
    rw [hsq, hz] at hl
    simp only [Option.some.injEq] at hl
    subst hl
    show (match parseFloatStr (stripCommas r.sqft), parseIntStr r.zipcode with
      | some sqv, some zv =>
          some { price := Cell.cval (fp r.price)
                 bedrooms := Cell.cval (toNumericCoerce r.bedrooms)
                 bathrooms := Cell.cval (toNumericCoerce r.bathrooms)
                 sqft := Cell.cval (PVal.num sqv)
                 zipcode := Cell.cint zv
                 ppsf := some (Cell.cval (pdiv (fp r.price) (PVal.num sqv))) : HRowObj }
      | _, _ => none) = _
    rw [hsq, hz]
    rfl
  have main := mapOpt_map_comm (g := processRowObj fp) (e := encodeRaw)
    (d := encodeListing) hcomm h
  rw [preprocess_scraped_listings_obj, main]

/-- Witness for `gap_clamped_nonpositive`: a concrete run (listings at
100000 and 500000, income 60000); at the 500000 listing the raw gap
-320000 is negative, kept, and indeed `≤ 0`. -/
theorem gap_clamped_nonpositive_witness :
    pleB (HouseMetric.mk (PVal.num 500000) (PVal.num 3) (PVal.num 2) (PVal.num 1500)
        (PVal.num (1000 / 3)) 1 (PVal.num 60000) (PVal.num 180000)
        (PVal.num (-320000))).gap (PVal.num 0) = true :=
  (gap_clamped_nonpositive fp0
    [⟨"100000", "3", "2", "1500", "1"⟩, ⟨"500000", "3", "2", "1500", "1"⟩]
    [⟨"ZCTA5 1", "60000"⟩]
    ((calculate_affordability_metrics fp0
        [⟨"100000", "3", "2", "1500", "1"⟩, ⟨"500000", "3", "2", "1500", "1"⟩]
        [⟨"ZCTA5 1", "60000"⟩]).getD ([], [])).1
    ((calculate_affordability_metrics fp0
        [⟨"100000", "3", "2", "1500", "1"⟩, ⟨"500000", "3", "2", "1500", "1"⟩]
        [⟨"ZCTA5 1", "60000"⟩]).getD ([], [])).2
    (by decide)
    (HouseMetric.mk (PVal.num 500000) (PVal.num 3) (PVal.num 2) (PVal.num 1500)
      (PVal.num (1000 / 3)) 1 (PVal.num 60000) (PVal.num 180000) (PVal.num (-320000)))
    (by decide)).1

/-- Witness for `join_one_row_per_listing`: one listing, a unique-key
income table for a different zipcode — the join keeps the listing with
NaN income. -/
theorem join_one_row_per_listing_witness :
    mergeHousingIncome
        [Listing.mk (PVal.num 100000) (PVal.num 3) (PVal.num 2) (PVal.num 1000)
          (PVal.num 100) 5]
        [Income.mk (PVal.num 60000) 6] =
      [Listing.mk (PVal.num 100000) (PVal.num 3) (PVal.num 2) (PVal.num 1000)
          (PVal.num 100) 5].map
        (fun l => mkJoined l (lookupIncome [Income.mk (PVal.num 60000) 6] l.zipcode)) :=
  (join_one_row_per_listing _ _ (by decide)).1

/-- Counterexample to claim C2 as stated: the income normalizer can emit
two rows for one postal code (duplicate geography labels), and then the
left join emits two rows for a single listing instead of one. -/
theorem join_duplicates_listing_on_dup_income :
    preprocess_income_data [⟨"ZCTA5 90210", "100000"⟩, ⟨"ZCTA5 90210", "50000"⟩] =
        some [⟨PVal.num 100000, 90210⟩, ⟨PVal.num 50000, 90210⟩] ∧
      preprocess_scraped_listings fp0 [⟨"150000", "3", "2", "1000", "90210"⟩] =
        some [⟨PVal.num 150000, PVal.num 3, PVal.num 2, PVal.num 1000, PVal.num 150, 90210⟩] ∧
      (mergeHousingIncome
          [⟨PVal.num 150000, PVal.num 3, PVal.num 2, PVal.num 1000, PVal.num 150, 90210⟩]
          [⟨PVal.num 100000, 90210⟩, ⟨PVal.num 50000, 90210⟩]).length = 2 := by
  decide

/-- Witness for `income_rows_per_zip_bound`: distinct labels, at most one
output row for 90210. -/
theorem income_rows_per_zip_bound_witness :
    ((([⟨PVal.num 100000, 90210⟩, ⟨PVal.num 50000, 12345⟩] : List Income)).filter
        (fun o => o.zipcode == 90210)).length ≤ 1 :=
  (income_rows_per_zip_bound [⟨"ZCTA5 90210", "100,000"⟩, ⟨"ZCTA5 12345", "50,000"⟩]
    [⟨PVal.num 100000, 90210⟩, ⟨PVal.num 50000, 12345⟩] (by decide) 90210).2 (by decide)

/-- Counterexample to claim C3 as stated: two raw rows with the same
geography label survive cleaning as two rows for postal code 90210. -/
theorem income_dup_zip_rows :
    preprocess_income_data [⟨"ZCTA5 90210", "100000"⟩, ⟨"ZCTA5 90210", "50000"⟩] =
        some [⟨PVal.num 100000, 90210⟩, ⟨PVal.num 50000, 90210⟩] ∧
      ¬(((([⟨PVal.num 100000, 90210⟩, ⟨PVal.num 50000, 90210⟩] : List Income)).filter
          (fun o => o.zipcode == 90210)).length ≤ 1) := by
  decide

/-- Witness for `listings_preprocess_state_eq_output` at a concrete row. -/
theorem listings_preprocess_state_eq_output_witness :
    preprocess_scraped_listings_obj fp0
        [encodeRaw (RawHousing.mk "50000" "2" "1" "800" "11111")] =
      some ([HRowObj.mk (Cell.cval (PVal.num 50000)) (Cell.cval (PVal.num 2))
              (Cell.cval (PVal.num 1)) (Cell.cval (PVal.num 800)) (Cell.cint 11111)
              (some (Cell.cval (PVal.num (125 / 2))))],
            [HRowObj.mk (Cell.cval (PVal.num 50000)) (Cell.cval (PVal.num 2))
              (Cell.cval (PVal.num 1)) (Cell.cval (PVal.num 800)) (Cell.cint 11111)
              (some (Cell.cval (PVal.num (125 / 2))))]) :=
  listings_preprocess_state_eq_output fp0 [⟨"50000", "2", "1", "800", "11111"⟩]
    ((preprocess_scraped_listings fp0 [⟨"50000", "2", "1", "800", "11111"⟩]).getD [])
    (by decide)

/-- Counterexample to claim C4 as stated: after the call the input
object's state is the converted table (with the added `Price_Per_SqFt`
column), not its initial state — the mutation is observable outside the
call. -/
theorem listings_preprocess_mutates_input :
    preprocess_scraped_listings_obj fp0
        [encodeRaw (RawHousing.mk "100000" "3" "2" "1,500" "90210")] =
      some ([HRowObj.mk (Cell.cval (PVal.num 100000)) (Cell.cval (PVal.num 3))
              (Cell.cval (PVal.num 2)) (Cell.cval (PVal.num 1500)) (Cell.cint 90210)
              (some (Cell.cval (PVal.num (200 / 3))))],
            [HRowObj.mk (Cell.cval (PVal.num 100000)) (Cell.cval (PVal.num 3))
              (Cell.cval (PVal.num 2)) (Cell.cval (PVal.num 1500)) (Cell.cint 90210)
              (some (Cell.cval (PVal.num (200 / 3))))]) ∧
      [HRowObj.mk (Cell.cval (PVal.num 100000)) (Cell.cval (PVal.num 3))
          (Cell.cval (PVal.num 2)) (Cell.cval (PVal.num 1500)) (Cell.cint 90210)
          (some (Cell.cval (PVal.num (200 / 3))))] ≠
        [encodeRaw (RawHousing.mk "100000" "3" "2" "1,500" "90210")] := by
  decide

/-- Witness for `unaffordable_flag_iff`: the spec scenario — prices
[300000, 500000] with income 60000 give an unaffordable group (and
[100000, 500000] with income 60000 an affordable one). -/
theorem unaffordable_flag_iff_witness :
    ((ZipAgg.mk 2 (PVal.num 300000) (PVal.num 500000) (PVal.num 400000) (PVal.num 60000)
        (PVal.num (67 / 10)) true).unaffordable = true ↔ (60000 : ℚ) * 3 < 300000) ∧
      (ZipAgg.mk 1 (PVal.num 100000) (PVal.num 500000) (PVal.num 300000) (PVal.num 60000)
        (PVal.num 5) false).unaffordable = false :=
  ⟨(unaffordable_flag_iff fp0
      [⟨"100000", "3", "2", "1500", "1"⟩, ⟨"500000", "3", "2", "1500", "1"⟩,
       ⟨"300000", "3", "2", "1500", "2"⟩, ⟨"500000", "3", "2", "1500", "2"⟩]
      [⟨"ZCTA5 1", "60000"⟩, ⟨"ZCTA5 2", "60000"⟩]
      ((calculate_affordability_metrics fp0
          [⟨"100000", "3", "2", "1500", "1"⟩, ⟨"500000", "3", "2", "1500", "1"⟩,
           ⟨"300000", "3", "2", "1500", "2"⟩, ⟨"500000", "3", "2", "1500", "2"⟩]
          [⟨"ZCTA5 1", "60000"⟩, ⟨"ZCTA5 2", "60000"⟩]).getD ([], [])).1
      ((calculate_affordability_metrics fp0
          [⟨"100000", "3", "2", "1500", "1"⟩, ⟨"500000", "3", "2", "1500", "1"⟩,
           ⟨"300000", "3", "2", "1500", "2"⟩, ⟨"500000", "3", "2", "1500", "2"⟩]
          [⟨"ZCTA5 1", "60000"⟩, ⟨"ZCTA5 2", "60000"⟩]).getD ([], [])).2
      (by decide)
      (ZipAgg.mk 2 (PVal.num 300000) (PVal.num 500000) (PVal.num 400000) (PVal.num 60000)
        (PVal.num (67 / 10)) true)
      (by decide)).2 60000 300000 rfl rfl,
   by decide⟩

/-- Witness for `income_sentinel_dropped_and_parsed`: `"250,000+"` cleans
to 250000.0 and `"-"` is dropped. -/
theorem income_sentinel_dropped_and_parsed_witness :
    preprocess_income_data [⟨"ZCTA5 90210", "250,000+"⟩, ⟨"ZCTA5 12345", "-"⟩] =
        some [⟨PVal.num 250000, 90210⟩] ∧
      ∃ r ∈ [RawIncome.mk "ZCTA5 90210" "250,000+", RawIncome.mk "ZCTA5 12345" "-"],
        r.income ≠ "-" ∧ extractZip r.geo = some 90210 ∧
        ∃ q : ℚ, parseFloatStr (stripIncomeChars r.income) = some q ∧
          PVal.num 250000 = PVal.num q :=
  ⟨by decide,
   income_sentinel_dropped_and_parsed
     [⟨"ZCTA5 90210", "250,000+"⟩, ⟨"ZCTA5 12345", "-"⟩]
     [⟨PVal.num 250000, 90210⟩] (by decide) ⟨PVal.num 250000, 90210⟩ (by decide)⟩

/-- Witness for `price_per_sqft_div`: a zero-area listing yields the
non-finite `inf`, with no error and no substitute value. -/
theorem price_per_sqft_div_witness :
    (Listing.mk (PVal.num 50000) (PVal.num 2) (PVal.num 1) (PVal.num 0) PVal.inf
        11111).pricePerSqFt =
      pdiv (PVal.num 50000) (PVal.num 0) ∧
      ((Listing.mk (PVal.num 50000) (PVal.num 2) (PVal.num 1) (PVal.num 0) PVal.inf
          11111).sqft = PVal.num 0 →
        isFinite (Listing.mk (PVal.num 50000) (PVal.num 2) (PVal.num 1) (PVal.num 0)
          PVal.inf 11111).pricePerSqFt = false) :=
  price_per_sqft_div fp0 [⟨"50000", "2", "1", "0", "11111"⟩]
    ((preprocess_scraped_listings fp0 [⟨"50000", "2", "1", "0", "11111"⟩]).getD [])
    (by decide)
    (Listing.mk (PVal.num 50000) (PVal.num 2) (PVal.num 1) (PVal.num 0) PVal.inf 11111)
    (by decide)

/-- Witness for `hpi_nonfinite_zero_or_null_income`: a zero-income
postal-code group computes `HPI = inf`, non-finite, with both the
division and the rounding completing. -/
theorem hpi_nonfinite_zero_or_null_income_witness :
    isFinite (ZipAgg.mk 4 (PVal.num 100000) (PVal.num 100000) (PVal.num 100000)
        (PVal.num 0) PVal.inf true).hpi = false :=
  hpi_nonfinite_zero_or_null_income fp0 [⟨"100000", "2", "1", "1000", "4"⟩]
    [⟨"ZCTA5 4", "0"⟩]
    ((calculate_affordability_metrics fp0 [⟨"100000", "2", "1", "1000", "4"⟩]
        [⟨"ZCTA5 4", "0"⟩]).getD ([], [])).1
    ((calculate_affordability_metrics fp0 [⟨"100000", "2", "1", "1000", "4"⟩]
        [⟨"ZCTA5 4", "0"⟩]).getD ([], [])).2
    (by decide)
    (ZipAgg.mk 4 (PVal.num 100000) (PVal.num 100000) (PVal.num 100000) (PVal.num 0)
      PVal.inf true)
    (by decide) (Or.inl rfl)

/-- Witness for `null_income_gap_reported_zero`: a listing in zipcode 7
with no income row gets gap exactly 0 and NaN affordable price. -/
theorem null_income_gap_reported_zero_witness :
    (HouseMetric.mk (PVal.num 900000) (PVal.num 3) (PVal.num 2) (PVal.num 1500)
        (PVal.num 600) 7 PVal.nan PVal.nan (PVal.num 0)).gap = PVal.num 0 ∧
      (HouseMetric.mk (PVal.num 900000) (PVal.num 3) (PVal.num 2) (PVal.num 1500)
        (PVal.num 600) 7 PVal.nan PVal.nan (PVal.num 0)).affordablePrice = PVal.nan :=
  null_income_gap_reported_zero fp0 [⟨"900000", "3", "2", "1500", "7"⟩]
    [⟨"ZCTA5 8", "60000"⟩]
    ((calculate_affordability_metrics fp0 [⟨"900000", "3", "2", "1500", "7"⟩]
        [⟨"ZCTA5 8", "60000"⟩]).getD ([], [])).1
    ((calculate_affordability_metrics fp0 [⟨"900000", "3", "2", "1500", "7"⟩]
        [⟨"ZCTA5 8", "60000"⟩]).getD ([], [])).2
    (by decide)
    (HouseMetric.mk (PVal.num 900000) (PVal.num 3) (PVal.num 2) (PVal.num 1500)
      (PVal.num 600) 7 PVal.nan PVal.nan (PVal.num 0))
    (by decide) rfl

/-- Witness for `null_income_not_unaffordable`: a postal-code group with
no income row is reported affordable. -/
theorem null_income_not_unaffordable_witness :
    (ZipAgg.mk 9 (PVal.num 250000) (PVal.num 250000) (PVal.num 250000) PVal.nan
        PVal.nan false).unaffordable = false :=
  null_income_not_unaffordable fp0 [⟨"250000", "2", "1", "1000", "9"⟩]
    [⟨"ZCTA5 10", "45000"⟩]
    ((calculate_affordability_metrics fp0 [⟨"250000", "2", "1", "1000", "9"⟩]
        [⟨"ZCTA5 10", "45000"⟩]).getD ([], [])).1
    ((calculate_affordability_metrics fp0 [⟨"250000", "2", "1", "1000", "9"⟩]
        [⟨"ZCTA5 10", "45000"⟩]).getD ([], [])).2
    (by decide)
    (ZipAgg.mk 9 (PVal.num 250000) (PVal.num 250000) (PVal.num 250000) PVal.nan
      PVal.nan false)
    (by decide) rfl
